import Mathlib

/-!
Shallow embedding of the TrexPay PIX payment-relay repository
(src/lib/trexpay.ts and src/app/api/pix/status/route.ts).

Modelling conventions:
* A JavaScript Date holds a time value that is either a number of epoch
  milliseconds or NaN (an Invalid Date, produced e.g. by new Date on an
  unparseable string); Date below has exactly those two shapes, and
  toISOString throws on the invalid one.
* Optional / possibly-undefined string fields are Option String; the
  JavaScript truthiness-based "a || b" on such fields is jsOr below
  (the empty string is falsy in JavaScript).
* The in-memory Map used as the transaction store is an association
  list with Map.set semantics (replace in place, preserving insertion
  order, or append when the key is new).
* Outbound HTTP (fetch) is modelled by passing the outcome of the call
  as an argument; the list of request bodies the function would send is
  returned so that "no outbound call is attempted" is expressible.
* crypto HMAC-SHA256 is implemented concretely (sha256 / hmacSha256
  below, bytes as Nat < 256, 32-bit words as Nat reduced mod 2^32);
  crypto.timingSafeEqual is modelled with its Node semantics: it throws
  on length mismatch (an Except error, caught by the caller) and
  otherwise reports whether the accumulated XOR of the byte pairs is 0.
-/

namespace Trexpay

/-- The observable time value of a JavaScript Date: epoch milliseconds,
or NaN for an Invalid Date (new Date of an unparseable string). Any Date
object, valid or not, is truthy. -/
inductive Date where
  | valid (ms : Nat)
  | invalid
deriving DecidableEq, Repr

/-- Date.prototype.toISOString: the ISO-8601 rendering of the time value
(carried here as its millisecond value) for a valid date; throws a
RangeError on an Invalid Date. -/
def toISOString : Date → Except String Nat
  | .valid ms => .ok ms
  | .invalid => .error "RangeError: Invalid time value"

/-- JavaScript "a || b" on two possibly-undefined string values:
the empty string is falsy, so it falls through to the right operand. -/
def jsOr (a b : Option String) : Option String :=
  match a with
  | some s => if s = "" then b else some s
  | none => b

/-- JavaScript "a || d" where d is a (string) default. -/
def jsOrDefault (a : Option String) (d : String) : String :=
  match a with
  | some s => if s = "" then d else s
  | none => d

/-- A JavaScript string value o is truthy iff it is defined and non-empty. -/
def optTruthy : Option String → Bool
  | some s => s ≠ ""
  | none => false

/-- The closed canonical status enumeration returned by mapTrexPayStatus
(the TypeScript union "pending" | "paid" | "cancelled" | "expired"). -/
inductive CanonStatus where
  | pending
  | paid
  | cancelled
  | expired
deriving DecidableEq, Repr

/-- The string value of a canonical status (the union members are string
literals in TypeScript). -/
def CanonStatus.str : CanonStatus → String
  | .pending => "pending"
  | .paid => "paid"
  | .cancelled => "cancelled"
  | .expired => "expired"

/-- ASCII case folding of one character (A-Z to a-z, all else fixed).
JavaScript's toLowerCase is Unicode-aware, but no non-ASCII character
lowercases to a string equal to any of the recognized keywords, so this
agrees with it on every input that can reach a non-default branch. -/
def charToLower (c : Char) : Char :=
  if 65 ≤ c.toNat ∧ c.toNat ≤ 90 then Char.ofNat (c.toNat + 32) else c

/-- Character-wise lowercasing of a string. -/
def strToLower (s : String) : String := String.mk (s.data.map charToLower)

/-- src/lib/trexpay.ts, mapTrexPayStatus: a switch on the lowercased
status with fall-through cases, defaulting to pending. -/
def mapTrexPayStatus (status : String) : CanonStatus :=
  let s := strToLower status
  if s = "paid" ∨ s = "approved" ∨ s = "completed" then .paid
  else if s = "cancelled" ∨ s = "canceled" ∨ s = "refused" then .cancelled
  else if s = "expired" then .expired
  else .pending

/-- Customer snapshot stored in a transaction record. -/
structure Customer where
  name : String
  email : String
  phone : String
  document : String
deriving DecidableEq, Repr

/-- Attribution-parameter snapshot stored in a transaction record. -/
structure TrackingParams where
  utm_source : Option String := none
  utm_campaign : Option String := none
  utm_medium : Option String := none
  utm_content : Option String := none
  utm_term : Option String := none
  src : Option String := none
  sck : Option String := none
deriving DecidableEq, Repr

/-- A line item of a transaction record. -/
structure Product where
  id : String
  name : String
  price : Nat
  quantity : Nat
deriving DecidableEq, Repr

/-- The value type of the transactionStore map in src/lib/trexpay.ts. -/
structure Transaction where
  orderId : String
  status : String
  amount : Nat
  customer : Customer
  trackingParams : TrackingParams
  products : List Product
  createdAt : Date
  paidAt : Option Date := none
deriving DecidableEq, Repr

/-- The in-memory transaction store: an insertion-ordered map from
transaction id to record. -/
abbrev Store := List (String × Transaction)

/-- Map.get: first (unique) entry with the given key, or undefined. -/
def storeGet (s : Store) (k : String) : Option Transaction :=
  match s with
  | [] => none
  | (k', v) :: t => if k' = k then some v else storeGet t k

/-- Map.set: replace the value in place when the key exists, preserving
order, otherwise append a new entry. -/
def storeSet (s : Store) (k : String) (v : Transaction) : Store :=
  match s with
  | [] => [(k, v)]
  | (k', v') :: t => if k' = k then (k, v) :: t else (k', v') :: storeSet t k v

/-- The data argument of saveTransaction (everything except the
createdAt timestamp, which saveTransaction stamps itself). -/
structure SaveData where
  orderId : String
  status : String
  amount : Nat
  customer : Customer
  trackingParams : TrackingParams
  products : List Product
deriving DecidableEq, Repr

/-- src/lib/trexpay.ts, saveTransaction: insert or overwrite the record
under the given id, with createdAt := new Date() (the current time in
epoch milliseconds is an explicit argument here; new Date() of the
current time is always a valid date) and no paidAt. -/
def saveTransaction (store : Store) (transactionId : String) (data : SaveData)
    (now : Nat) : Store :=
  storeSet store transactionId
    { orderId := data.orderId
      status := data.status
      amount := data.amount
      customer := data.customer
      trackingParams := data.trackingParams
      products := data.products
      createdAt := .valid now
      paidAt := none }

/-- src/lib/trexpay.ts, getTransaction. -/
def getTransaction (store : Store) (transactionId : String) : Option Transaction :=
  storeGet store transactionId

/-- src/lib/trexpay.ts, updateTransactionStatus: if the record exists,
overwrite its status, set paidAt only when a paidAt argument is supplied
(a Date object is always truthy), and write the record back; otherwise
do nothing. -/
def updateTransactionStatus (store : Store) (transactionId : String)
    (status : String) (paidAt : Option Date) : Store :=
  match storeGet store transactionId with
  | none => store
  | some transaction =>
      storeSet store transactionId
        { transaction with
          status := status
          paidAt := match paidAt with
            | some d => some d
            | none => transaction.paidAt }

/-! ## Gateway client (createTrexPayPix) -/

/-- The TrexPayCreatePixRequest interface of src/lib/trexpay.ts. -/
structure TrexPayCreatePixRequest where
  amount : Nat
  debtor_name : String
  phone : String
  email : String
  debtor_document_number : String
  postback : String
  utm_source : Option String := none
  utm_campaign : Option String := none
  split_email : Option String := none
  split_percentage : Option String := none
deriving DecidableEq, Repr

/-- The JSON body createTrexPayPix posts to the gateway. -/
structure TrexPayRequestBody where
  token : String
  secret : String
  amount : Nat
  debtor_name : String
  phone : String
  email : String
  debtor_document_number : String
  method_pay : String
  postback : String
  utm_source : String
  utm_campaign : String
  split_email : String
  split_percentage : String
deriving DecidableEq, Repr

/-- The parsed JSON body of a gateway response, with every field name the
code probes for; absent fields are none. -/
structure GatewayResponseBody where
  qrcode : Option String := none
  pix_code : Option String := none
  emv : Option String := none
  qrcode_base64 : Option String := none
  qr_code_base64 : Option String := none
  transaction_id : Option String := none
  id : Option String := none
  idTransaction : Option String := none
  txid : Option String := none
  tx_id : Option String := none
  expires_at : Option String := none
  expiration : Option String := none
  message : Option String := none
  error : Option String := none
deriving DecidableEq, Repr

/-- Outcome of the fetch to the gateway: either the try-block threw
(transport failure or response.json() failure), carrying String(error),
or an HTTP status together with the parsed body. -/
inductive FetchOutcome where
  | threw (err : String)
  | replied (status : Nat) (body : GatewayResponseBody)
deriving DecidableEq, Repr

/-- The TrexPayCreatePixResponse interface of src/lib/trexpay.ts. -/
structure TrexPayCreatePixResponse where
  success : Bool
  qrcode : Option String := none
  qrcode_base64 : Option String := none
  transaction_id : Option String := none
  txid : Option String := none
  expires_at : Option String := none
  error : Option String := none
deriving DecidableEq, Repr

/-- src/lib/trexpay.ts, createTrexPayPix. The module-level credentials
TREXPAY_TOKEN / TREXPAY_SECRET (process.env with a "" default) are
explicit arguments, as is the outcome of the fetch. The second component
of the result is the list of request bodies sent to the gateway, so that
"no outbound call was attempted" is the statement that it is empty. -/
def createTrexPayPix (token secret : String) (request : TrexPayCreatePixRequest)
    (outcome : FetchOutcome) : TrexPayCreatePixResponse × List TrexPayRequestBody :=
  if token = "" ∨ secret = "" then
    ({ success := false, error := some "Credenciais TrexPay não configuradas" }, [])
  else
    let requestBody : TrexPayRequestBody :=
      { token := token
        secret := secret
        amount := request.amount
        debtor_name := request.debtor_name
        phone := request.phone
        email := request.email
        debtor_document_number := request.debtor_document_number
        method_pay := "pix"
        postback := request.postback
        utm_source := jsOrDefault request.utm_source ""
        utm_campaign := jsOrDefault request.utm_campaign ""
        split_email := jsOrDefault request.split_email ""
        split_percentage := jsOrDefault request.split_percentage "" }
    match outcome with
    | .threw err => ({ success := false, error := some err }, [requestBody])
    | .replied status responseData =>
        if ¬ (200 ≤ status ∧ status < 300) then
          ({ success := false
             error := some (jsOrDefault (jsOr responseData.message responseData.error)
               "Erro ao criar PIX") }, [requestBody])
        else
          ({ success := true
             qrcode := jsOr (jsOr responseData.qrcode responseData.pix_code) responseData.emv
             qrcode_base64 := jsOr responseData.qrcode_base64 responseData.qr_code_base64
             transaction_id :=
               jsOr (jsOr responseData.transaction_id responseData.id) responseData.idTransaction
             txid := jsOr responseData.txid responseData.tx_id
             expires_at := jsOr responseData.expires_at responseData.expiration },
           [requestBody])

/-! ## Bytes, UTF-8, SHA-256, HMAC (the crypto module used by the verifier) -/

/-- UTF-8 encoding of a single character (bytes as Nat < 256). -/
def utf8Char (c : Char) : List Nat :=
  let n := c.toNat
  if n < 128 then [n]
  else if n < 2048 then [192 + n / 64, 128 + n % 64]
  else if n < 65536 then [224 + n / 4096, 128 + (n / 64) % 64, 128 + n % 64]
  else [240 + n / 262144, 128 + (n / 4096) % 64, 128 + (n / 64) % 64, 128 + n % 64]

/-- UTF-8 encoding of a character list. -/
def charsBytes : List Char → List Nat
  | [] => []
  | c :: cs => utf8Char c ++ charsBytes cs

/-- UTF-8 bytes of a string (what Buffer.from(s) holds in Node). -/
def utf8Bytes (s : String) : List Nat := charsBytes s.data

/-- 2^32, the modulus of 32-bit machine arithmetic. -/
def MOD32 : Nat := 4294967296

/-- 2^32 - 1, the all-ones 32-bit word. -/
def MASK32 : Nat := 4294967295

/-- 32-bit modular addition. -/
def add32 (a b : Nat) : Nat := (a + b) % MOD32

/-- 32-bit right rotation of a word already reduced mod 2^32. -/
def rotr32 (n x : Nat) : Nat := ((x >>> n) + ((x % (2 ^ n)) * (2 ^ (32 - n)))) % MOD32

/-- SHA-256 big sigma 0. -/
def bigSigma0 (x : Nat) : Nat := Nat.xor (Nat.xor (rotr32 2 x) (rotr32 13 x)) (rotr32 22 x)

/-- SHA-256 big sigma 1. -/
def bigSigma1 (x : Nat) : Nat := Nat.xor (Nat.xor (rotr32 6 x) (rotr32 11 x)) (rotr32 25 x)

/-- SHA-256 small sigma 0. -/
def smallSigma0 (x : Nat) : Nat := Nat.xor (Nat.xor (rotr32 7 x) (rotr32 18 x)) (x >>> 3)

/-- SHA-256 small sigma 1. -/
def smallSigma1 (x : Nat) : Nat := Nat.xor (Nat.xor (rotr32 17 x) (rotr32 19 x)) (x >>> 10)

/-- SHA-256 choice function (not x is xor with the all-ones word). -/
def ch (x y z : Nat) : Nat := Nat.xor (Nat.land x y) (Nat.land (Nat.xor x MASK32) z)

/-- SHA-256 majority function. -/
def maj (x y z : Nat) : Nat := Nat.xor (Nat.xor (Nat.land x y) (Nat.land x z)) (Nat.land y z)

/-- The 64 SHA-256 round constants (FIPS 180-4), written in decimal. -/
def K256 : List Nat :=
  [1116352408, 1899447441, 3049323471, 3921009573,
   961987163, 1508970993, 2453635748, 2870763221,
   3624381080, 310598401, 607225278, 1426881987,
   1925078388, 2162078206, 2614888103, 3248222580,
   3835390401, 4022224774, 264347078, 604807628,
   770255983, 1249150122, 1555081692, 1996064986,
   2554220882, 2821834349, 2952996808, 3210313671,
   3336571891, 3584528711, 113926993, 338241895,
   666307205, 773529912, 1294757372, 1396182291,
   1695183700, 1986661051, 2177026350, 2456956037,
   2730485921, 2820302411, 3259730800, 3345764771,
   3516065817, 3600352804, 4094571909, 275423344,
   430227734, 506948616, 659060556, 883997877,
   958139571, 1322822218, 1537002063, 1747873779,
   1955562222, 2024104815, 2227730452, 2361852424,
   2428436474, 2756734187, 3204031479, 3329325298]

/-- The eight 32-bit working variables of the SHA-256 compression. -/
structure Hash8 where
  a : Nat
  b : Nat
  c : Nat
  d : Nat
  e : Nat
  f : Nat
  g : Nat
  h : Nat
deriving DecidableEq, Repr

/-- SHA-256 initial hash value (FIPS 180-4), written in decimal. -/
def sha256Init : Hash8 :=
  ⟨1779033703, 3144134277, 1013904242, 2773480762,
   1359893119, 2600822924, 528734635, 1541459225⟩

/-- Extend the 16-word message schedule by the given number of words. -/
def extendW : Nat → List Nat → List Nat
  | 0, w => w
  | n + 1, w =>
      let i := w.length
      let x := add32 (add32 (smallSigma1 (w.getD (i - 2) 0)) (w.getD (i - 7) 0))
                     (add32 (smallSigma0 (w.getD (i - 15) 0)) (w.getD (i - 16) 0))
      extendW n (w ++ [x])

/-- The 64 compression rounds, consuming (constant, schedule word) pairs. -/
def compressRounds : List (Nat × Nat) → Hash8 → Hash8
  | [], st => st
  | (k, w) :: rest, st =>
      let t1 := add32 (add32 (add32 st.h (bigSigma1 st.e)) (add32 (ch st.e st.f st.g) k)) w
      let t2 := add32 (bigSigma0 st.a) (maj st.a st.b st.c)
      compressRounds rest ⟨add32 t1 t2, st.a, st.b, st.c, add32 st.d t1, st.e, st.f, st.g⟩

/-- Big-endian 4-byte groups to 32-bit words (fuel bounds the recursion). -/
def bytesToWords : Nat → List Nat → List Nat
  | 0, _ => []
  | _ + 1, b0 :: b1 :: b2 :: b3 :: rest =>
      (((b0 * 256 + b1) * 256 + b2) * 256 + b3) :: bytesToWords (rest.length) rest
  | _ + 1, _ => []

/-- One SHA-256 block step: schedule, compress, add back. -/
def processBlock (st : Hash8) (block : List Nat) : Hash8 :=
  let w := extendW 48 (bytesToWords 16 block)
  let r := compressRounds (K256.zip w) st
  ⟨add32 st.a r.a, add32 st.b r.b, add32 st.c r.c, add32 st.d r.d,
   add32 st.e r.e, add32 st.f r.f, add32 st.g r.g, add32 st.h r.h⟩

/-- Fold the block step over a list of blocks. -/
def processBlocks : List (List Nat) → Hash8 → Hash8
  | [], st => st
  | blk :: rest, st => processBlocks rest (processBlock st blk)

/-- Split a byte list into 64-byte blocks (fuel bounds the recursion). -/
def toBlocks : Nat → List Nat → List (List Nat)
  | 0, _ => []
  | _ + 1, [] => []
  | n + 1, l => l.take 64 :: toBlocks n (l.drop 64)

/-- SHA-256 padding: 0x80, zeros to 56 mod 64, 8-byte big-endian bit length. -/
def sha256Pad (msg : List Nat) : List Nat :=
  let bitLen := msg.length * 8
  let zeros := (119 - msg.length % 64) % 64
  msg ++ [128] ++ List.replicate zeros 0 ++
    [(bitLen >>> 56) % 256, (bitLen >>> 48) % 256, (bitLen >>> 40) % 256, (bitLen >>> 32) % 256,
     (bitLen >>> 24) % 256, (bitLen >>> 16) % 256, (bitLen >>> 8) % 256, bitLen % 256]

/-- Big-endian bytes of a 32-bit word. -/
def wordBytes (w : Nat) : List Nat := [(w >>> 24) % 256, (w >>> 16) % 256, (w >>> 8) % 256, w % 256]

/-- SHA-256 digest (32 bytes) of a byte list. -/
def sha256 (msg : List Nat) : List Nat :=
  let padded := sha256Pad msg
  let st := processBlocks (toBlocks padded.length padded) sha256Init
  wordBytes st.a ++ wordBytes st.b ++ wordBytes st.c ++ wordBytes st.d ++
  wordBytes st.e ++ wordBytes st.f ++ wordBytes st.g ++ wordBytes st.h

/-- Lowercase hex digit for a value below 16. -/
def hexChar (n : Nat) : Char := if n < 10 then Char.ofNat (48 + n) else Char.ofNat (87 + n)

/-- Two-character lowercase hex rendering of one byte. -/
def byteHex (b : Nat) : List Char := [hexChar (b / 16), hexChar (b % 16)]

/-- Lowercase hex string of a byte list (Buffer digest("hex")). -/
def bytesToHex (l : List Nat) : String := String.mk (l.foldr (fun b acc => byteHex b ++ acc) [])

/-- HMAC-SHA256 (RFC 2104) over byte lists, 64-byte block size. -/
def hmacSha256 (key msg : List Nat) : List Nat :=
  let k0 := if 64 < key.length then sha256 key else key
  let kpad := k0 ++ List.replicate (64 - k0.length) 0
  let ipadKey := kpad.map (fun b => Nat.xor b 54)
  let opadKey := kpad.map (fun b => Nat.xor b 92)
  sha256 (opadKey ++ sha256 (ipadKey ++ msg))

/-- crypto.createHmac("sha256", secret).update(message).digest("hex"). -/
def hmacSha256Hex (secret message : String) : String :=
  bytesToHex (hmacSha256 (utf8Bytes secret) (utf8Bytes message))

/-! ## JSON serialization of the webhook payload -/

/-- JSON.stringify escaping of one character. -/
def jsonEscapeChar (c : Char) : List Char :=
  if c = '"' then ['\\', '"']
  else if c = '\\' then ['\\', '\\']
  else if c.toNat = 8 then ['\\', 'b']
  else if c.toNat = 9 then ['\\', 't']
  else if c.toNat = 10 then ['\\', 'n']
  else if c.toNat = 12 then ['\\', 'f']
  else if c.toNat = 13 then ['\\', 'r']
  else if c.toNat < 32 then ['\\', 'u', '0', '0', hexChar (c.toNat / 16), hexChar (c.toNat % 16)]
  else [c]

/-- JSON.stringify of a string value, quotes included. -/
def jsonStr (s : String) : String :=
  String.mk ('"' :: s.data.foldr (fun c acc => jsonEscapeChar c ++ acc) ['"'])

/-- The payer block of the TrexPayWebhookPayload interface. -/
structure WebhookPayer where
  name : String
  document : String
deriving DecidableEq, Repr

/-- The metadata block of the TrexPayWebhookPayload interface. -/
structure WebhookMetadata where
  txid : String
deriving DecidableEq, Repr

/-- The data block of the TrexPayWebhookPayload interface. -/
structure WebhookData where
  idTransaction : String
  status : String
  amount : Nat
  paid_at : Option String := none
  typeTransaction : String
  payer : WebhookPayer
  metadata : WebhookMetadata
deriving DecidableEq, Repr

/-- The TrexPayWebhookPayload interface of src/lib/trexpay.ts. -/
structure TrexPayWebhookPayload where
  event : String
  data : WebhookData
  signature : Option String := none
deriving DecidableEq, Repr

/-- JSON.stringify of the data block, keys in interface order, undefined
optional fields omitted. -/
def stringifyData (d : WebhookData) : String :=
  "\x7b\"idTransaction\":" ++ jsonStr d.idTransaction ++
  ",\"status\":" ++ jsonStr d.status ++
  ",\"amount\":" ++ toString d.amount ++
  (match d.paid_at with
   | some p => ",\"paid_at\":" ++ jsonStr p
   | none => "") ++
  ",\"typeTransaction\":" ++ jsonStr d.typeTransaction ++
  ",\"payer\":\x7b\"name\":" ++ jsonStr d.payer.name ++
  ",\"document\":" ++ jsonStr d.payer.document ++ "\x7d" ++
  ",\"metadata\":\x7b\"txid\":" ++ jsonStr d.metadata.txid ++ "\x7d\x7d"

/-- JSON.stringify of the whole payload. -/
def stringifyPayload (p : TrexPayWebhookPayload) : String :=
  "\x7b\"event\":" ++ jsonStr p.event ++
  ",\"data\":" ++ stringifyData p.data ++
  (match p.signature with
   | some s => ",\"signature\":" ++ jsonStr s
   | none => "") ++ "\x7d"

/-! ## Webhook signature verification -/

/-- crypto.timingSafeEqual on two byte buffers: throws RangeError when the
lengths differ, otherwise reports whether the accumulated XOR of the byte
pairs is zero. -/
def timingSafeEqual (a b : List Nat) : Except String Bool :=
  if a.length ≠ b.length then
    .error "RangeError: Input buffers must have the same byte length"
  else
    .ok (((a.zip b).foldl (fun acc p => acc ||| Nat.xor p.1 p.2) 0) == 0)

/-- The try/catch around the timingSafeEqual call: a thrown RangeError is
caught and turned into false. -/
def timingSafeEqualCaught (a b : List Nat) : Bool :=
  match timingSafeEqual a b with
  | .ok v => v
  | .error _ => false

/-- src/lib/trexpay.ts, verifyTrexPaySignature: false when the signature or
the secret is empty; otherwise recompute "sha256=" ++ hex HMAC of the
re-serialized payload and compare with timingSafeEqual, the surrounding
try/catch turning its length-mismatch throw into false. -/
def verifyTrexPaySignature (payload : TrexPayWebhookPayload)
    (signature secret : String) : Bool :=
  if signature = "" ∨ secret = "" then false
  else
    let expectedSignature := "sha256=" ++ hmacSha256Hex secret (stringifyPayload payload)
    timingSafeEqualCaught (utf8Bytes signature) (utf8Bytes expectedSignature)

/-! ## Status-query route (GET of src/app/api/pix/status/route.ts) -/

/-- The JSON response of the status-query GET handler. httpStatus is the
HTTP status code; the remaining fields are the JSON body fields, none
meaning the field is absent from the body. paidAt is some v when the
body carries the field: v is some ms for the ISO-8601 string rendering
the time value ms, or none for the explicit null. -/
structure StatusQueryResponse where
  httpStatus : Nat
  success : Option Bool := none
  transactionId : Option String := none
  orderId : Option String := none
  status : Option String := none
  paidAt : Option (Option Nat) := none
  error : Option String := none
deriving DecidableEq, Repr

/-- GET of src/app/api/pix/status/route.ts: 400 when the transactionId
query parameter is absent or empty (both are falsy); otherwise the found
record's orderId, status and paidAt?.toISOString() || null — toISOString
throws on a stored Invalid Date, and the surrounding try/catch then
answers 500 — or status "pending" when the store has no record. -/
def pixStatusGET (transactionId : Option String) (store : Store) : StatusQueryResponse :=
  match transactionId with
  | none => { httpStatus := 400, error := some "transactionId é obrigatório" }
  | some tid =>
      if tid = "" then
        { httpStatus := 400, error := some "transactionId é obrigatório" }
      else
        match getTransaction store tid with
        | some transaction =>
            match transaction.paidAt with
            | some d =>
                match toISOString d with
                | .ok ms =>
                    { httpStatus := 200
                      success := some true
                      transactionId := some tid
                      orderId := some transaction.orderId
                      status := some transaction.status
                      paidAt := some (some ms) }
                | .error _ =>
                    { httpStatus := 500, error := some "Erro interno ao consultar status" }
            | none =>
                { httpStatus := 200
                  success := some true
                  transactionId := some tid
                  orderId := some transaction.orderId
                  status := some transaction.status
                  paidAt := some none }
        | none =>
            { httpStatus := 200
              success := some true
              transactionId := some tid
              status := some "pending" }

/-! ## Webhook route (POST of the webhook handler route) -/

/-- The JSON response of the webhook POST handler; none fields are absent
from the body. -/
structure WebhookResponse where
  httpStatus : Nat
  success : Option Bool := none
  message : Option String := none
  status : Option String := none
  error : Option String := none
deriving DecidableEq, Repr

/-- Request-independent ambient state of the webhook handler: the header
signature (after the || "" default, so "" when no header was sent), the
TREXPAY_SECRET environment value ("" when unset — both unset and empty
are falsy in the process.env check), the current time Date.now() in
epoch milliseconds, and the Date constructor's parsing of a date string
(which yields an Invalid Date on an unparseable one). -/
structure WebhookEnv where
  signature : String
  secret : String
  now : Nat
  parseDate : String → Date

/-- data.idTransaction || data.metadata?.txid, the transaction id the
webhook handler resolves (an empty idTransaction is falsy). -/
def webhookTxId (p : TrexPayWebhookPayload) : String :=
  if p.data.idTransaction = "" then p.data.metadata.txid else p.data.idTransaction

/-- The event-processing tail of the webhook handler, after the signature
gate: resolve the id, map the status, acknowledge unknown transactions
with success, otherwise update the store (paidAt only for paid, from
new Date(data.paid_at || Date.now())) and reply success with the mapped
status. The fire-and-forget attribution-service notification is outside
the modelled state (its failures are swallowed and it does not touch the
store or the response). -/
def processWebhookEvent (env : WebhookEnv) (payload : TrexPayWebhookPayload)
    (store : Store) : WebhookResponse × Store :=
  let transactionId := webhookTxId payload
  let status := mapTrexPayStatus payload.data.status
  match getTransaction store transactionId with
  | none =>
      ({ httpStatus := 200
         success := some true
         message := some "Transaction not found but acknowledged" }, store)
  | some _ =>
      let paidAt : Option Date :=
        if status = .paid then
          some (match payload.data.paid_at with
            | some s => if s = "" then Date.valid env.now else env.parseDate s
            | none => Date.valid env.now)
        else none
      let store1 := updateTransactionStatus store transactionId status.str paidAt
      ({ httpStatus := 200, success := some true, status := some status.str }, store1)

/-- POST of the webhook route: 400 on a body that does not parse as JSON
(the body argument is none); verify the signature only when both the
header and the secret are non-empty, replying 401 when it is invalid;
then process the event. -/
def trexpayWebhookPOST (env : WebhookEnv) (body : Option TrexPayWebhookPayload)
    (store : Store) : WebhookResponse × Store :=
  match body with
  | none => ({ httpStatus := 400, error := some "Invalid JSON" }, store)
  | some payload =>
      if env.signature ≠ "" ∧ env.secret ≠ "" then
        if verifyTrexPaySignature payload env.signature env.secret then
          processWebhookEvent env payload store
        else
          ({ httpStatus := 401, error := some "Invalid signature" }, store)
      else
        processWebhookEvent env payload store

/-! ## A UTF-8 decoder, used only to prove the encoding injective -/

/-- Decode the first scalar value from a UTF-8 byte list, returning its
code point and the remaining bytes. Left inverse of utf8Char. -/
def utf8Dec : List Nat → Option (Nat × List Nat)
  | [] => none
  | b :: r =>
      if b < 128 then some (b, r)
      else if b < 224 then
        match r with
        | b1 :: r' => some ((b - 192) * 64 + (b1 - 128), r')
        | [] => none
      else if b < 240 then
        match r with
        | b1 :: b2 :: r' => some (((b - 224) * 64 + (b1 - 128)) * 64 + (b2 - 128), r')
        | _ => none
      else
        match r with
        | b1 :: b2 :: b3 :: r' =>
            some ((((b - 240) * 64 + (b1 - 128)) * 64 + (b2 - 128)) * 64 + (b3 - 128), r')
        | _ => none

/-! ## Concrete inputs used by witnesses and counterexamples -/

/-- A sample customer snapshot. -/
def demoCustomer : Customer := ⟨"Ana", "a@x.com", "11999999999", "12345678900"⟩

/-- A sample line item. -/
def demoProducts : List Product := [⟨"p1", "Caderno", 10, 1⟩]

/-- A sample saveTransaction data argument with status pending. -/
def demoSave : SaveData := ⟨"PED-1", "pending", 50, demoCustomer, {}, demoProducts⟩

/-- A store holding exactly the pending transaction tx1. -/
def demoStore : Store := saveTransaction [] "tx1" demoSave 0

/-- The record demoStore holds under tx1. -/
def demoTx : Transaction :=
  ⟨"PED-1", "pending", 50, demoCustomer, {}, demoProducts, .valid 0, none⟩

/-- A sample charge-creation request. -/
def demoRequest : TrexPayCreatePixRequest :=
  { amount := 50
    debtor_name := "Ana"
    phone := "11999999999"
    email := "a@x.com"
    debtor_document_number := "12345678900"
    postback := "https://site.example/api/webhook/trexpay" }

/-- A gateway response body whose transaction_id field is present but
holds the empty string, every other field absent. -/
def emptyIdBody : GatewayResponseBody := { transaction_id := some "" }

/-- A webhook payload reporting tx1 approved. -/
def paidPayload : TrexPayWebhookPayload :=
  { event := "payment.updated"
    data := { idTransaction := "tx1"
              status := "approved"
              amount := 50
              typeTransaction := "pix"
              payer := ⟨"Ana", "12345678900"⟩
              metadata := ⟨"tx1"⟩ } }

/-- A webhook payload reporting tx1 cancelled. -/
def cancelledPayload : TrexPayWebhookPayload :=
  { event := "payment.updated"
    data := { idTransaction := "tx1"
              status := "cancelled"
              amount := 50
              typeTransaction := "pix"
              payer := ⟨"Ana", "12345678900"⟩
              metadata := ⟨"tx1"⟩ } }

/-- A webhook payload for a transaction id no store below holds. -/
def unknownPayload : TrexPayWebhookPayload :=
  { event := "payment.updated"
    data := { idTransaction := "ghost"
              status := "paid"
              amount := 1
              typeTransaction := "pix"
              payer := ⟨"Bob", "00000000000"⟩
              metadata := ⟨"ghost"⟩ } }

/-- Webhook ambient state with no signature header and no secret. -/
def demoEnvSkip : WebhookEnv := ⟨"", "", 5, fun _ => .valid 0⟩

/-- Webhook ambient state with a configured secret and a signature header
that does not match. -/
def demoEnvBadSig : WebhookEnv := ⟨"deadbeef", "topsecret", 5, fun _ => .valid 0⟩

/-- Webhook ambient state with no signature header and no secret, whose
Date constructor yields an Invalid Date on every string it is asked to
parse (as new Date does on an unparseable one). -/
def demoEnvBadDate : WebhookEnv := ⟨"", "", 5, fun _ => .invalid⟩

/-- A webhook payload reporting tx1 paid with an unparseable paid_at. -/
def badDatePayload : TrexPayWebhookPayload :=
  { event := "payment.updated"
    data := { idTransaction := "tx1"
              status := "paid"
              amount := 50
              paid_at := some "not-a-date"
              typeTransaction := "pix"
              payer := ⟨"Ana", "12345678900"⟩
              metadata := ⟨"tx1"⟩ } }

/-- The store after that webhook is processed against demoStore: tx1 is
paid with an Invalid Date stored in paidAt. -/
def demoStoreBadDate : Store :=
  (trexpayWebhookPOST demoEnvBadDate (some badDatePayload) demoStore).2

/-- The store after the approved webhook is processed against demoStore. -/
def demoStorePaid : Store := (trexpayWebhookPOST demoEnvSkip (some paidPayload) demoStore).2

/-- The store after a cancelled webhook is then processed on demoStorePaid. -/
def demoStoreCancelled : Store :=
  (trexpayWebhookPOST demoEnvSkip (some cancelledPayload) demoStorePaid).2

/-! ## Store lemmas -/

theorem storeGet_storeSet_same (s : Store) (k : String) (v : Transaction) :
    storeGet (storeSet s k v) k = some v := by
  induction s with
  | nil => simp [storeGet, storeSet]
  | cons hd tl ih =>
      obtain ⟨k', v'⟩ := hd
      by_cases h : k' = k <;> simp [storeGet, storeSet, h, ih]

theorem storeGet_storeSet_ne (s : Store) (k k' : String) (v : Transaction)
    (h : k' ≠ k) : storeGet (storeSet s k v) k' = storeGet s k' := by
  have hne : k ≠ k' := fun he => h he.symm
  induction s with
  | nil => simp [storeGet, storeSet, hne]
  | cons hd tl ih =>
      obtain ⟨a, b⟩ := hd
      by_cases ha : a = k
      · subst ha
        simp [storeGet, storeSet, hne]
      · simp [storeGet, storeSet, ha, ih]

theorem storeSet_storeSet_same (s : Store) (k : String) (v w : Transaction) :
    storeSet (storeSet s k v) k w = storeSet s k w := by
  induction s with
  | nil => simp [storeSet]
  | cons hd tl ih =>
      obtain ⟨a, b⟩ := hd
      by_cases ha : a = k <;> simp [storeSet, ha, ih]

/-! ## C5: the status mapper -/

/-- C5: mapTrexPayStatus is a total, case-insensitive map into the closed
four-value set: any casing of paid, approved or completed maps to paid;
any casing of cancelled, canceled or refused maps to cancelled; any
casing of expired maps to expired; every other string maps to pending. -/
theorem mapStatus_canonical (s : String) :
    ((strToLower s = "paid" ∨ strToLower s = "approved" ∨ strToLower s = "completed") →
      mapTrexPayStatus s = .paid) ∧
    ((strToLower s = "cancelled" ∨ strToLower s = "canceled" ∨ strToLower s = "refused") →
      mapTrexPayStatus s = .cancelled) ∧
    (strToLower s = "expired" → mapTrexPayStatus s = .expired) ∧
    (¬(strToLower s = "paid" ∨ strToLower s = "approved" ∨ strToLower s = "completed" ∨
       strToLower s = "cancelled" ∨ strToLower s = "canceled" ∨ strToLower s = "refused" ∨
       strToLower s = "expired") →
      mapTrexPayStatus s = .pending) := by
  refine ⟨?_, ?_, ?_, ?_⟩ <;> intro h
  · rcases h with h | h | h <;> simp [mapTrexPayStatus, h]
  · rcases h with h | h | h <;> simp [mapTrexPayStatus, h]
  · simp [mapTrexPayStatus, h]
  · push_neg at h
    obtain ⟨h1, h2, h3, h4, h5, h6, h7⟩ := h
    simp [mapTrexPayStatus, h1, h2, h3, h4, h5, h6, h7]

/-- Witness for C5 at the concrete inputs "APPROVED" and "waiting_payment". -/
theorem mapStatus_canonical_witness :
    mapTrexPayStatus "APPROVED" = .paid ∧ mapTrexPayStatus "waiting_payment" = .pending :=
  ⟨(mapStatus_canonical "APPROVED").1 (Or.inr (Or.inl (by decide))),
   (mapStatus_canonical "waiting_payment").2.2.2 (by decide)⟩

/-! ## C7: missing credentials -/

/-- C7: with the token or the secret unset, createTrexPayPix returns a
failure result carrying an error message and attempts no outbound call. -/
theorem createCharge_missing_credentials (token secret : String)
    (request : TrexPayCreatePixRequest) (outcome : FetchOutcome)
    (h : token = "" ∨ secret = "") :
    (createTrexPayPix token secret request outcome).1.success = false ∧
    (createTrexPayPix token secret request outcome).1.error =
      some "Credenciais TrexPay não configuradas" ∧
    (createTrexPayPix token secret request outcome).2 = [] := by
  unfold createTrexPayPix
  rw [if_pos h]
  exact ⟨rfl, rfl, rfl⟩

/-- Witness for C7 with an unset token. -/
theorem createCharge_missing_credentials_witness :
    (createTrexPayPix "" "sec" demoRequest (.threw "net down")).1.success = false ∧
    (createTrexPayPix "" "sec" demoRequest (.threw "net down")).1.error =
      some "Credenciais TrexPay não configuradas" ∧
    (createTrexPayPix "" "sec" demoRequest (.threw "net down")).2 = [] :=
  createCharge_missing_credentials "" "sec" demoRequest (.threw "net down") (Or.inl rfl)

/-! ## C8: idempotence of updateTransactionStatus -/

/-- C8: repeating updateTransactionStatus with identical arguments leaves
the store exactly as a single call does (proved for every id and status,
present or not, so in particular for a present id and a terminal status). -/
theorem updateStatus_idempotent (store : Store) (id status : String)
    (paidAt : Option Date) :
    updateTransactionStatus (updateTransactionStatus store id status paidAt)
      id status paidAt = updateTransactionStatus store id status paidAt := by
  unfold updateTransactionStatus
  cases hg : storeGet store id with
  | none => simp [hg]
  | some t =>
      simp only [hg, storeGet_storeSet_same]
      cases paidAt <;> simp [storeSet_storeSet_same]

/-! ## C9: frame conditions of updateTransactionStatus -/

/-- C9: updateTransactionStatus on an absent id leaves the store untouched;
on a present id it changes only the status field (and paidAt when an
argument is supplied), preserving every other field and every other record. -/
theorem updateStatus_frame (store : Store) (id status : String)
    (paidAt : Option Date) :
    (storeGet store id = none → updateTransactionStatus store id status paidAt = store) ∧
    (∀ t, storeGet store id = some t →
      (∃ t', storeGet (updateTransactionStatus store id status paidAt) id = some t' ∧
        t'.status = status ∧
        t'.orderId = t.orderId ∧
        t'.amount = t.amount ∧
        t'.customer = t.customer ∧
        t'.trackingParams = t.trackingParams ∧
        t'.products = t.products ∧
        t'.createdAt = t.createdAt ∧
        (paidAt = none → t'.paidAt = t.paidAt) ∧
        (∀ d, paidAt = some d → t'.paidAt = some d)) ∧
      (∀ k, k ≠ id → storeGet (updateTransactionStatus store id status paidAt) k =
        storeGet store k)) := by
  constructor
  · intro h
    unfold updateTransactionStatus
    rw [h]
  · intro t ht
    unfold updateTransactionStatus
    rw [ht]
    refine ⟨⟨_, storeGet_storeSet_same _ _ _, rfl, rfl, rfl, rfl, rfl, rfl, rfl, ?_, ?_⟩, ?_⟩
    · intro hp; rw [hp]
    · intro d hp; rw [hp]
    · intro k hk
      exact storeGet_storeSet_ne _ _ _ _ hk

/-- Witness for C9: updating tx1 in demoStore with paid/timestamp 7 leaves
the record under another key untouched and rewrites only status and paidAt. -/
theorem updateStatus_frame_witness :
    storeGet demoStore "tx1" = some demoTx ∧
    storeGet (updateTransactionStatus demoStore "tx1" "paid" (some (Date.valid 7))) "other" =
      storeGet demoStore "other" :=
  ⟨by decide,
   ((updateStatus_frame demoStore "tx1" "paid" (some (Date.valid 7))).2 demoTx (by decide)).2
     "other" (by decide)⟩

/-! ## C10: the status-query GET handler -/

/-- C10 counterexample: after a paid webhook whose paid_at string new
Date cannot parse, tx1 holds an Invalid Date in paidAt; the status query
for tx1 then hits the toISOString throw and is answered 500 with an
error body and no success field — not the success the claim asserts for
every query against a stored record. -/
theorem statusGET_invalid_date_counterexample :
    (storeGet demoStoreBadDate "tx1").map Transaction.status = some "paid" ∧
    (storeGet demoStoreBadDate "tx1").map Transaction.paidAt = some (some Date.invalid) ∧
    (pixStatusGET (some "tx1") demoStoreBadDate).httpStatus = 500 ∧
    (pixStatusGET (some "tx1") demoStoreBadDate).success = none ∧
    (pixStatusGET (some "tx1") demoStoreBadDate).error =
      some "Erro interno ao consultar status" := by
  decide

/-- C10 amended: a status query carrying a (non-empty) transaction id
reports success with HTTP 200 and the record's status and paid timestamp
(null when unset) when a record exists whose stored paidAt is not an
Invalid Date, and success 200 with status pending when no record exists;
a stored Invalid Date instead makes toISOString throw, and the catch
answers 500 with no success field. -/
theorem statusGET_spec (store : Store) (tid : String) (h : tid ≠ "") :
    (∀ t, storeGet store tid = some t →
      (∀ ms, t.paidAt = some (Date.valid ms) →
        (pixStatusGET (some tid) store).httpStatus = 200 ∧
        (pixStatusGET (some tid) store).success = some true ∧
        (pixStatusGET (some tid) store).status = some t.status ∧
        (pixStatusGET (some tid) store).paidAt = some (some ms)) ∧
      (t.paidAt = none →
        (pixStatusGET (some tid) store).httpStatus = 200 ∧
        (pixStatusGET (some tid) store).success = some true ∧
        (pixStatusGET (some tid) store).status = some t.status ∧
        (pixStatusGET (some tid) store).paidAt = some none) ∧
      (t.paidAt = some Date.invalid →
        (pixStatusGET (some tid) store).httpStatus = 500 ∧
        (pixStatusGET (some tid) store).success = none)) ∧
    (storeGet store tid = none →
      (pixStatusGET (some tid) store).httpStatus = 200 ∧
      (pixStatusGET (some tid) store).success = some true ∧
      (pixStatusGET (some tid) store).status = some "pending") := by
  constructor
  · intro t ht
    refine ⟨?_, ?_, ?_⟩
    · intro ms hms
      simp [pixStatusGET, getTransaction, ht, h, hms, toISOString]
    · intro hnone
      simp [pixStatusGET, getTransaction, ht, h, hnone]
    · intro hinv
      simp [pixStatusGET, getTransaction, ht, h, hinv, toISOString]
  · intro hg
    simp [pixStatusGET, getTransaction, hg, h]

/-- Witness for C10 as amended, at demoStore: tx1 is found pending with a
null paidAt. -/
theorem statusGET_spec_witness :
    (pixStatusGET (some "tx1") demoStore).httpStatus = 200 ∧
    (pixStatusGET (some "tx1") demoStore).success = some true ∧
    (pixStatusGET (some "tx1") demoStore).status = some "pending" ∧
    (pixStatusGET (some "tx1") demoStore).paidAt = some none :=
  ((statusGET_spec demoStore "tx1" (by decide)).1 demoTx (by decide)).2.1 (by decide)

/-! ## C6: gateway success normalization -/

theorem optTruthy_jsOr (a b : Option String) :
    optTruthy (jsOr a b) = (optTruthy a || optTruthy b) := by
  cases a with
  | none => simp [jsOr, optTruthy]
  | some s => by_cases h : s = "" <;> simp [jsOr, optTruthy, h]

theorem optTruthy_some (o : Option String) (h : optTruthy o = true) :
    ∃ t, o = some t ∧ t ≠ "" := by
  cases o with
  | none => simp [optTruthy] at h
  | some s => exact ⟨s, rfl, by simpa [optTruthy] using h⟩

/-- C6 counterexample: a 2xx gateway reply whose body contains the
transaction_id field name bound to the empty string yields success true
but an undefined transaction identifier (the || chain falls through every
falsy field), refuting the claim that a present field name suffices for a
non-empty identifier. -/
theorem createCharge_empty_id_counterexample :
    emptyIdBody.transaction_id.isSome = true ∧
    (createTrexPayPix "tok" "sec" demoRequest (.replied 200 emptyIdBody)).1.success = true ∧
    (createTrexPayPix "tok" "sec" demoRequest (.replied 200 emptyIdBody)).1.transaction_id
      = none := by
  decide

/-- C6 amended: with configured credentials and a 2xx reply whose body
holds a non-empty string in at least one of transaction_id, id or
idTransaction, createTrexPayPix returns success true and a non-empty
transaction identifier. -/
theorem createCharge_success_2xx (token secret : String)
    (request : TrexPayCreatePixRequest) (status : Nat) (body : GatewayResponseBody)
    (htok : token ≠ "") (hsec : secret ≠ "") (hlo : 200 ≤ status) (hhi : status < 300)
    (hid : ∃ t, t ≠ "" ∧ (body.transaction_id = some t ∨ body.id = some t ∨
      body.idTransaction = some t)) :
    (createTrexPayPix token secret request (.replied status body)).1.success = true ∧
    ∃ t, (createTrexPayPix token secret request (.replied status body)).1.transaction_id
      = some t ∧ t ≠ "" := by
  have hcred : ¬(token = "" ∨ secret = "") := by tauto
  have htr : optTruthy (jsOr (jsOr body.transaction_id body.id) body.idTransaction)
      = true := by
    obtain ⟨t, ht, hcase⟩ := hid
    rw [optTruthy_jsOr, optTruthy_jsOr]
    rcases hcase with h | h | h <;> simp [h, optTruthy, ht]
  obtain ⟨t, h1, h2⟩ := optTruthy_some _ htr
  simp only [createTrexPayPix, hcred, if_false]
  rw [if_neg (not_not_intro ⟨hlo, hhi⟩)]
  exact ⟨rfl, t, h1, h2⟩

/-- Witness for C6 as amended, at a concrete 2xx reply carrying id. -/
theorem createCharge_success_2xx_witness :
    (createTrexPayPix "tok" "sec" demoRequest
      (.replied 200 { id := some "T-9" })).1.success = true ∧
    ∃ t, (createTrexPayPix "tok" "sec" demoRequest
      (.replied 200 { id := some "T-9" })).1.transaction_id = some t ∧ t ≠ "" :=
  createCharge_success_2xx "tok" "sec" demoRequest 200 { id := some "T-9" }
    (by decide) (by decide) (by decide) (by decide)
    ⟨"T-9", by decide, Or.inr (Or.inl rfl)⟩

/-! ## C1: status transitions are not guarded -/

/-- C1 counterexample: processing an approved webhook and then a
cancelled webhook for the same stored transaction moves its status from
the terminal state paid to the different terminal state cancelled, so
terminal states are not sticky. -/
theorem webhook_terminal_overwritten_counterexample :
    (storeGet demoStorePaid "tx1").map Transaction.status = some "paid" ∧
    (storeGet demoStoreCancelled "tx1").map Transaction.status = some "cancelled" := by
  decide

/-- C1 amended: nothing guards status transitions — whenever the record
exists, updateTransactionStatus unconditionally overwrites its status
with the supplied one, whatever (terminal or not) the previous status was. -/
theorem updateStatus_overwrites (store : Store) (id status : String)
    (paidAt : Option Date) (t : Transaction) (h : storeGet store id = some t) :
    (storeGet (updateTransactionStatus store id status paidAt) id).map
      Transaction.status = some status := by
  simp only [updateTransactionStatus, h]
  rw [storeGet_storeSet_same]
  rfl

/-- Witness for C1 as amended at a concrete store. -/
theorem updateStatus_overwrites_witness :
    storeGet demoStore "tx1" = some demoTx ∧
    (storeGet (updateTransactionStatus demoStore "tx1" "paid" (some (Date.valid 7))) "tx1").map
      Transaction.status = some "paid" :=
  ⟨by decide, updateStatus_overwrites demoStore "tx1" "paid" (some (Date.valid 7)) demoTx (by decide)⟩

/-! ## C2: the webhook handler without signature enforcement -/

/-- C2: when the signature header is empty or the secret is unset, the
webhook handler skips verification (which would have failed, as the last
conjunct shows) and still processes the event: for a known transaction id
it replies HTTP 200 success carrying the mapped status and overwrites the
stored record's status with it. -/
theorem webhook_skips_verification (env : WebhookEnv) (p : TrexPayWebhookPayload)
    (store : Store) (t : Transaction)
    (hskip : env.signature = "" ∨ env.secret = "")
    (hfound : storeGet store (webhookTxId p) = some t) :
    (trexpayWebhookPOST env (some p) store).1.httpStatus = 200 ∧
    (trexpayWebhookPOST env (some p) store).1.success = some true ∧
    (trexpayWebhookPOST env (some p) store).1.status =
      some (mapTrexPayStatus p.data.status).str ∧
    (storeGet (trexpayWebhookPOST env (some p) store).2 (webhookTxId p)).map
      Transaction.status = some (mapTrexPayStatus p.data.status).str ∧
    verifyTrexPaySignature p env.signature env.secret = false := by
  have hbranch : ¬(env.signature ≠ "" ∧ env.secret ≠ "") := by tauto
  have hv : verifyTrexPaySignature p env.signature env.secret = false := by
    unfold verifyTrexPaySignature
    rw [if_pos hskip]
  have hpost : trexpayWebhookPOST env (some p) store = processWebhookEvent env p store := by
    simp only [trexpayWebhookPOST]
    rw [if_neg hbranch]
  refine ⟨?_, ?_, ?_, ?_, hv⟩ <;>
    simp only [hpost, processWebhookEvent, getTransaction, hfound]
  exact updateStatus_overwrites store (webhookTxId p) _ _ t hfound

/-- Witness for C2: the approved webhook processed with no secret set. -/
theorem webhook_skips_verification_witness :
    (trexpayWebhookPOST demoEnvSkip (some paidPayload) demoStore).1.httpStatus = 200 ∧
    (trexpayWebhookPOST demoEnvSkip (some paidPayload) demoStore).1.success = some true ∧
    (storeGet (trexpayWebhookPOST demoEnvSkip (some paidPayload) demoStore).2
      (webhookTxId paidPayload)).map Transaction.status =
      some (mapTrexPayStatus paidPayload.data.status).str :=
  ⟨(webhook_skips_verification demoEnvSkip paidPayload demoStore demoTx
      (Or.inl rfl) (by decide)).1,
   (webhook_skips_verification demoEnvSkip paidPayload demoStore demoTx
      (Or.inl rfl) (by decide)).2.1,
   (webhook_skips_verification demoEnvSkip paidPayload demoStore demoTx
      (Or.inl rfl) (by decide)).2.2.2.1⟩

/-! ## C4: unknown transaction acknowledgement -/

set_option maxRecDepth 1000000 in
set_option maxHeartbeats 2000000 in
/-- C4 counterexample: a webhook request with valid JSON and an unknown
transaction id, but carrying a non-matching signature while the secret is
configured, is answered 401 with an error body — not HTTP 200 with the
acknowledgement body the claim asserts for every such request. -/
theorem webhook_unknown_id_counterexample :
    storeGet demoStore (webhookTxId unknownPayload) = none ∧
    (trexpayWebhookPOST demoEnvBadSig (some unknownPayload) demoStore).1.httpStatus = 401 ∧
    (trexpayWebhookPOST demoEnvBadSig (some unknownPayload) demoStore).1.success = none ∧
    (trexpayWebhookPOST demoEnvBadSig (some unknownPayload) demoStore).1.message = none := by
  decide

/-- C4 amended: for every webhook request with valid JSON whose
transaction id is unknown, provided the signature gate does not reject it
(header empty, secret unset, or signature valid), the handler replies
HTTP 200 with success true and the acknowledgement message, and the store
is left completely unchanged. -/
theorem webhook_unknown_acknowledged (env : WebhookEnv) (p : TrexPayWebhookPayload)
    (store : Store)
    (hsig : env.signature = "" ∨ env.secret = "" ∨
      verifyTrexPaySignature p env.signature env.secret = true)
    (hmiss : storeGet store (webhookTxId p) = none) :
    (trexpayWebhookPOST env (some p) store).1 =
      { httpStatus := 200, success := some true,
        message := some "Transaction not found but acknowledged" } ∧
    (trexpayWebhookPOST env (some p) store).2 = store := by
  have hproc : processWebhookEvent env p store =
      ({ httpStatus := 200, success := some true,
         message := some "Transaction not found but acknowledged" }, store) := by
    simp only [processWebhookEvent, getTransaction, hmiss]
  by_cases hb : env.signature ≠ "" ∧ env.secret ≠ ""
  · have hv : verifyTrexPaySignature p env.signature env.secret = true := by
      rcases hsig with h | h | h
      · exact absurd h hb.1
      · exact absurd h hb.2
      · exact h
    simp only [trexpayWebhookPOST]
    rw [if_pos hb, if_pos hv, hproc]
    exact ⟨rfl, rfl⟩
  · simp only [trexpayWebhookPOST]
    rw [if_neg hb, hproc]
    exact ⟨rfl, rfl⟩

/-- Witness for C4 as amended: the unknown-id webhook with no signature
and no secret. -/
theorem webhook_unknown_acknowledged_witness :
    (trexpayWebhookPOST demoEnvSkip (some unknownPayload) demoStore).1 =
      { httpStatus := 200, success := some true,
        message := some "Transaction not found but acknowledged" } ∧
    (trexpayWebhookPOST demoEnvSkip (some unknownPayload) demoStore).2 = demoStore :=
  webhook_unknown_acknowledged demoEnvSkip unknownPayload demoStore
    (Or.inl rfl) (by decide)

/-! ## C3: the signature verifier -/

theorem utf8Char_ne_nil (c : Char) : utf8Char c ≠ [] := by
  simp only [utf8Char]
  split_ifs <;> simp

theorem utf8Dec_utf8Char (c : Char) (r : List Nat) :
    utf8Dec (utf8Char c ++ r) = some (c.toNat, r) := by
  simp only [utf8Char]
  split_ifs with h1 h2 h3 <;>
    simp only [List.cons_append, List.nil_append, utf8Dec]
  · rw [if_pos h1]
  · rw [if_neg (by omega), if_pos (by omega)]
    simp
    omega
  · rw [if_neg (by omega), if_neg (by omega), if_pos (by omega)]
    simp
    omega
  · rw [if_neg (by omega), if_neg (by omega), if_neg (by omega)]
    simp
    omega

theorem charsBytes_inj (l1 : List Char) : ∀ l2, charsBytes l1 = charsBytes l2 → l1 = l2 := by
  induction l1 with
  | nil =>
      intro l2 h
      cases l2 with
      | nil => rfl
      | cons d ds =>
          exfalso
          have h' : utf8Char d ++ charsBytes ds = [] := by
            simpa [charsBytes] using h.symm
          rcases List.append_eq_nil.mp h' with ⟨hd, _⟩
          exact utf8Char_ne_nil d hd
  | cons c cs ih =>
      intro l2 h
      cases l2 with
      | nil =>
          exfalso
          have h' : utf8Char c ++ charsBytes cs = [] := by
            simpa [charsBytes] using h
          rcases List.append_eq_nil.mp h' with ⟨hd, _⟩
          exact utf8Char_ne_nil c hd
      | cons d ds =>
          have h1 := utf8Dec_utf8Char c (charsBytes cs)
          have h2 := utf8Dec_utf8Char d (charsBytes ds)
          have hcb : utf8Char c ++ charsBytes cs = utf8Char d ++ charsBytes ds := by
            simpa [charsBytes] using h
          rw [hcb, h2] at h1
          injection h1 with hpair
          have hn : d.toNat = c.toNat := congrArg Prod.fst hpair
          have hr : charsBytes ds = charsBytes cs := congrArg Prod.snd hpair
          have hcd : d = c := by
            have h3 := congrArg Char.ofNat hn
            rwa [Char.ofNat_toNat, Char.ofNat_toNat] at h3
          rw [← hcd, ih ds hr.symm]

theorem utf8Bytes_inj {s t : String} (h : utf8Bytes s = utf8Bytes t) : s = t :=
  String.ext (charsBytes_inj s.data t.data h)

theorem lor_eq_zero {a b : Nat} : a ||| b = 0 ↔ a = 0 ∧ b = 0 := by
  constructor
  · intro h
    constructor
    · apply Nat.eq_of_testBit_eq
      intro k
      have hk := congrArg (fun x => Nat.testBit x k) h
      simp [Nat.testBit_lor] at hk
      simp [hk.1]
    · apply Nat.eq_of_testBit_eq
      intro k
      have hk := congrArg (fun x => Nat.testBit x k) h
      simp [Nat.testBit_lor] at hk
      simp [hk.2]
  · rintro ⟨rfl, rfl⟩
    rfl

theorem foldl_or_eq_zero {α : Type} (g : α → Nat) (l : List α) (acc : Nat) :
    (l.foldl (fun x y => x ||| g y) acc = 0) ↔ (acc = 0 ∧ ∀ y ∈ l, g y = 0) := by
  induction l generalizing acc with
  | nil => simp
  | cons z zs ih =>
      simp only [List.foldl_cons, ih, lor_eq_zero, List.mem_cons]
      constructor
      · rintro ⟨⟨ha, hz⟩, hall⟩
        refine ⟨ha, fun y hy => ?_⟩
        rcases hy with rfl | hy
        · exact hz
        · exact hall y hy
      · rintro ⟨ha, hall⟩
        exact ⟨⟨ha, hall z (Or.inl rfl)⟩, fun y hy => hall y (Or.inr hy)⟩

theorem eq_of_zip_forall_eq (a : List Nat) : ∀ (b : List Nat), a.length = b.length →
    (∀ p ∈ a.zip b, p.1 = p.2) → a = b := by
  induction a with
  | nil =>
      intro b h _
      cases b with
      | nil => rfl
      | cons y ys => simp at h
  | cons x xs ih =>
      intro b h hall
      cases b with
      | nil => simp at h
      | cons y ys =>
          have hx : x = y := hall (x, y) (by simp [List.zip_cons_cons])
          have hxs : xs = ys := by
            apply ih ys (by simpa using h)
            intro p hp
            apply hall
            rw [List.zip_cons_cons]
            exact List.mem_cons_of_mem _ hp
          rw [hx, hxs]

theorem zip_self_forall_eq (a : List Nat) : ∀ p ∈ a.zip a, p.1 = p.2 := by
  induction a with
  | nil => intro p hp; simp [List.zip_nil_right] at hp
  | cons x xs ih =>
      intro p hp
      rw [List.zip_cons_cons] at hp
      rcases List.mem_cons.mp hp with h | h
      · rw [h]
      · exact ih p h

theorem timingSafeEqualCaught_iff (a b : List Nat) :
    timingSafeEqualCaught a b = true ↔ a = b := by
  unfold timingSafeEqualCaught timingSafeEqual
  by_cases h : a.length = b.length
  · rw [if_neg (not_not_intro h)]
    simp only [beq_iff_eq, foldl_or_eq_zero (fun p : Nat × Nat => Nat.xor p.1 p.2), true_and]
    constructor
    · intro hall
      apply eq_of_zip_forall_eq a b h
      intro p hp
      exact Nat.xor_eq_zero.mp (hall p hp)
    · rintro rfl
      intro p hp
      exact Nat.xor_eq_zero.mpr (zip_self_forall_eq a p hp)
  · rw [if_pos h]
    simp only [Bool.false_eq_true, false_iff]
    intro he
    exact h (he ▸ rfl)

/-- C3: verifyTrexPaySignature returns false whenever the signature or the
secret is the empty string, and with both non-empty it returns true
exactly when the signature equals "sha256=" followed by the hex
HMAC-SHA256, under the secret, of the JSON serialization of the payload
(byte-exact: the buffers compared are the UTF-8 bytes, and UTF-8
encoding is injective). -/
theorem verify_iff (p : TrexPayWebhookPayload) (sig secret : String) :
    ((sig = "" ∨ secret = "") → verifyTrexPaySignature p sig secret = false) ∧
    (sig ≠ "" → secret ≠ "" →
      (verifyTrexPaySignature p sig secret = true ↔
        sig = "sha256=" ++ hmacSha256Hex secret (stringifyPayload p))) := by
  constructor
  · intro h
    unfold verifyTrexPaySignature
    rw [if_pos h]
  · intro h1 h2
    simp only [verifyTrexPaySignature]
    rw [if_neg (by tauto)]
    rw [timingSafeEqualCaught_iff]
    constructor
    · exact fun hb => utf8Bytes_inj hb
    · intro hs
      rw [hs]

/-- Witness for C3: an absent signature header is rejected. -/
theorem verify_iff_witness : verifyTrexPaySignature paidPayload "" "topsecret" = false :=
  (verify_iff paidPayload "" "topsecret").1 (Or.inl rfl)

/-! ## Validation of the crypto toolkit against published test vectors -/

set_option maxRecDepth 1000000 in
set_option maxHeartbeats 2000000 in
theorem sha256_abc_test_vector :
    bytesToHex (sha256 (utf8Bytes "abc")) =
      "ba7816bf8f01cfea414140de5dae2223b00361a396177a9cb410ff61f20015ad" := by
  decide

set_option maxRecDepth 1000000 in
set_option maxHeartbeats 2000000 in
theorem hmacSha256Hex_test_vector :
    hmacSha256Hex "key" "The quick brown fox jumps over the lazy dog" =
      "f7bc83f430538424b13298e6aa6fb143ef4d59a14946175997479dbc2d1a3cd8" := by
  decide

end Trexpay
